import Mathlib

/-!
# Verification of the rustRoast device-connectivity and event-distribution core

Shallow embedding of the MQTT connection manager (`crates/mqtt/src/client.rs`),
the topic parser and background consumer of `crates/server/src/main.rs`, and the
QoS1 publish/ack helper, together with proofs of the specification claims.

Machine integers are modelled as `Nat`/`Int`; raw byte payloads are modelled by
their lossy UTF-8 text together with the result of `serde_json::from_slice`
(the JSON library is external to the repository, so its output is carried as
data); database effects are modelled as explicit row lists; async effects
(locks, sleeps, channel sends) are modelled by explicit outputs of a step
function.
-/

namespace RustRoast

/-- QoS levels of rumqttc (`QoS` in the source). -/
inductive QoS where
  | atMostOnce
  | atLeastOnce
  | exactlyOnce
deriving DecidableEq, Repr

/-- A JSON value as produced by `serde_json::from_slice::<serde_json::Value>`.
JSON numbers are modelled as integers: no claim depends on fractional
arithmetic, only on extraction by field name. -/
inductive JsonVal where
  | null
  | bool (b : Bool)
  | num (n : Int)
  | str (s : String)
  | arr (xs : List JsonVal)
  | obj (fields : List (String × JsonVal))

/-- `Value::get(key)` on a JSON value: field lookup on objects, `None` otherwise. -/
def JsonVal.get (v : JsonVal) (key : String) : Option JsonVal :=
  match v with
  | .obj fields => fields.lookup key
  | _ => none

/-- `Value::as_str`. -/
def JsonVal.as_str : JsonVal → Option String
  | .str s => some s
  | _ => none

/-- `Value::as_i64`. -/
def JsonVal.as_i64 : JsonVal → Option Int
  | .num n => some n
  | _ => none

/-- A raw MQTT payload (`Vec<u8>` in the source), carried as its
`String::from_utf8_lossy` text together with the result of
`serde_json::from_slice::<serde_json::Value>` on the same bytes. -/
structure RawPayload where
  text : String
  parsed : Option JsonVal

/-- `MqttEvent` from `crates/mqtt/src/client.rs`. -/
inductive MqttEvent where
  | connected
  | disconnected
  | publish (topic : String) (payload : RawPayload)
  | pubAck (pkid : Nat)

/-- `rustroast_core::ROOT` from `crates/core/src/topics.rs`. -/
def ROOT : String := "roaster"

/-- Accumulator-passing core of character splitting. -/
def splitAux (sep : Char) : List Char → List Char → List (List Char)
  | [], acc => [acc.reverse]
  | c :: cs, acc =>
    if c = sep then acc.reverse :: splitAux sep cs []
    else splitAux sep cs (c :: acc)

/-- Rust's `str::split(sep)` for a one-character separator, as used by
`topic.split('/')`: splitting never yields an empty list (the empty string
splits to `[""]`), and adjacent separators yield empty segments. -/
def splitString (s : String) (sep : Char) : List String :=
  (splitAux sep s.data []).map (fun cs => { data := cs })

/-- `parse_roaster_topic` from `crates/server/src/main.rs` (lines 671-679):
split on `/`, require the first segment to equal `ROOT`, then take the next
two segments as `(device_id, kind)`; fail if any `parts.next()` is exhausted. -/
def parse_roaster_topic (topic : String) : Option (String × String) :=
  match splitString topic '/' with
  | [] => none
  | root :: rest =>
    if root ≠ ROOT then none
    else
      match rest with
      | device :: kind :: _ => some (device, kind)
      | _ => none

/-! ## Connection manager (`crates/mqtt/src/client.rs`) -/

/-- Key-set of a tracked-subscription association list. -/
def subsKeys (subs : List (String × QoS)) : List String :=
  subs.map Prod.fst

/-- `HashMap::insert` on the tracked-subscription map: replace the QoS of an
existing topic, otherwise append the new entry. -/
def subsInsert (subs : List (String × QoS)) (topic : String) (qos : QoS) :
    List (String × QoS) :=
  if (subsKeys subs).contains topic then
    subs.map (fun p => if p.1 = topic then (topic, qos) else p)
  else
    subs ++ [(topic, qos)]

/-- The mutable state shared between `MqttService` and `run_eventloop`:
the `ready` flag (AtomicBool), the tracked-subscription map
(`subscriptions: RwLock<HashMap<String, QoS>>`), and the local
`backoff_secs` of `run_eventloop`. -/
structure LoopState where
  ready : Bool
  backoff_secs : Nat
  subscriptions : List (String × QoS)

/-- State just after `MqttService::connect`: `ready` is created as
`AtomicBool::new(false)`, subscriptions empty, and `run_eventloop` starts
with `backoff_secs = 1`. -/
def initLoopState : LoopState :=
  { ready := false, backoff_secs := 1, subscriptions := [] }

/-- One result of `eventloop.poll().await`, the scrutinee of the `match` in
`run_eventloop`. -/
inductive PollResult where
  | connAck
  | incomingPublish (topic : String) (payload : RawPayload)
  | incomingPubAck (pkid : Nat)
  | outgoingDisconnect
  | otherEvent
  | pollError

/-- Observable side effects of one iteration of `run_eventloop`:
events sent on the broadcast channel, the seconds slept, the subscribe calls
re-issued to the broker, and whether the loop continues (it has no exit). -/
structure StepOut where
  emitted : List MqttEvent
  sleptSecs : Option Nat
  subscribeCalls : List (String × QoS)
  continues : Bool

/-- One iteration of the `loop` in `run_eventloop` (lines 125-193):
* `ConnAck`: set ready, emit `Connected`, re-issue every tracked
  subscription (individual failures are only logged), reset backoff to 1;
* `Publish`/`PubAck`: forward as events;
* `Outgoing::Disconnect`: clear ready, emit `Disconnected`;
* other events: ignored;
* poll error: clear ready, emit `Disconnected`, sleep `min backoff 30`,
  set backoff to `min (backoff*2) 60`, rebuild the client and continue.
The loop body never touches `subscriptions` and never breaks or returns. -/
def run_eventloop_step (st : LoopState) (r : PollResult) : LoopState × StepOut :=
  match r with
  | .connAck =>
    ({ st with ready := true, backoff_secs := 1 },
     { emitted := [.connected], sleptSecs := none,
       subscribeCalls := st.subscriptions, continues := true })
  | .incomingPublish topic payload =>
    (st, { emitted := [.publish topic payload], sleptSecs := none,
           subscribeCalls := [], continues := true })
  | .incomingPubAck pkid =>
    (st, { emitted := [.pubAck pkid], sleptSecs := none,
           subscribeCalls := [], continues := true })
  | .outgoingDisconnect =>
    ({ st with ready := false },
     { emitted := [.disconnected], sleptSecs := none,
       subscribeCalls := [], continues := true })
  | .otherEvent =>
    (st, { emitted := [], sleptSecs := none,
           subscribeCalls := [], continues := true })
  | .pollError =>
    ({ st with ready := false, backoff_secs := min (st.backoff_secs * 2) 60 },
     { emitted := [.disconnected], sleptSecs := some (min st.backoff_secs 30),
       subscribeCalls := [], continues := true })

/-- Run `run_eventloop` over a sequence of poll results, collecting outputs. -/
def runLoop (st : LoopState) : List PollResult → LoopState × List StepOut
  | [] => (st, [])
  | r :: rs =>
    let step := run_eventloop_step st r
    let rest := runLoop step.1 rs
    (rest.1, step.2 :: rest.2)

/-- `MqttService::subscribe` (lines 70-79): issue the subscribe; on transport
success record `(topic, qos)` in the tracked map; return the transport
result (`true` = `Ok`). -/
def service_subscribe (st : LoopState) (topic : String) (qos : QoS)
    (transportOk : Bool) : LoopState × Bool :=
  if transportOk then
    ({ st with subscriptions := subsInsert st.subscriptions topic qos }, true)
  else
    (st, false)

/-- `MqttService::disconnect` (lines 81-85): clear `ready`, then ask the
client to disconnect (the transport call's own result is not modelled). -/
def service_disconnect (st : LoopState) : LoopState :=
  { st with ready := false }

/-- A subscribe error (`ClientError` in rumqttc), abstracted. -/
structure SubError where
  message : String
deriving DecidableEq

/-- `MqttService::resubscribe_tracked` (lines 87-101), applied to the
snapshot of the tracked map and the per-call transport outcome
(`subscribeResult t q = none` means the subscribe for `t` succeeded):
iterate over the tracked entries, returning the first error immediately;
on full success return `Ok`. The second component lists the subscribe
calls actually issued, in order. -/
def resubscribe_tracked (subscribeResult : String → QoS → Option SubError) :
    List (String × QoS) → Option SubError × List (String × QoS)
  | [] => (none, [])
  | (topic, qos) :: rest =>
    match subscribeResult topic qos with
    | some err => (some err, [(topic, qos)])
    | none =>
      let next := resubscribe_tracked subscribeResult rest
      (next.1, (topic, qos) :: next.2)

/-! ## Background consumer (`mqtt_consumer_loop` in `crates/server/src/main.rs`) -/

/-- `DeviceInfo` from `crates/server/src/main.rs` (lines 47-56). -/
structure DeviceInfo where
  device_id : String
  last_seen : Nat
  id : Option String
  ip : Option String
  version : Option String
  rssi : Option Int
  status_raw : Option JsonVal

/-- A row of the `telemetry` table (also used for `autotune_status` and
`autotune_results`, which have the same columns). -/
structure TelemetryRow where
  device_id : String
  ts : Int
  payload : String

/-- A row of the `session_telemetry` table; the measurement columns hold the
result of `json_extract(payload, field)` (`none` = SQL NULL for a missing
field). -/
structure SessionTelemetryRow where
  session_id : String
  timestamp : Int
  bean_temp : Option JsonVal
  env_temp : Option JsonVal
  rate_of_rise : Option JsonVal
  heater_pwm : Option JsonVal
  fan_pwm : Option JsonVal
  setpoint : Option JsonVal

/-- The columns of `roast_sessions` read by the consumer's SQL and by
`get_active_session`. -/
structure RoastSession where
  id : String
  device_id : String
  status : String
  start_time : Int

/-- The database state visible to the consumer: the four tables it inserts
into, plus `roast_sessions` which it only reads. -/
structure Db where
  telemetry : List TelemetryRow
  session_telemetry : List SessionTelemetryRow
  autotune_status : List TelemetryRow
  autotune_results : List TelemetryRow
  roast_sessions : List RoastSession

/-- The metric cells touched by `mqtt_consumer_loop`. -/
structure Metrics where
  mqtt_connected : Int
  mqtt_rx_total : Nat
  telemetry_last_seen : List (String × Int)
  status_last_seen : List (String × Int)

/-- `IntGaugeVec::with_label_values(&[id]).set(v)`. -/
def gaugeSet (g : List (String × Int)) (label : String) (v : Int) :
    List (String × Int) :=
  if (g.map Prod.fst).contains label then
    g.map (fun p => if p.1 = label then (label, v) else p)
  else
    g ++ [(label, v)]

/-- A per-device cache (`HashMap<String, (serde_json::Value, u64)>`). -/
abbrev Cache : Type := List (String × (JsonVal × Nat))

/-- `HashMap::insert` on a cache. -/
def cacheInsert (c : Cache) (key : String) (v : JsonVal × Nat) : Cache :=
  if (c.map Prod.fst).contains key then
    c.map (fun p => if p.1 = key then (key, v) else p)
  else
    c ++ [(key, v)]

/-- The state owned or read by `mqtt_consumer_loop`: the three value caches,
the device registry, the metrics, and the database. -/
structure ConsumerState where
  telemetry_cache : Cache
  device_registry : List (String × DeviceInfo)
  autotune_status_cache : Cache
  autotune_results_cache : Cache
  metrics : Metrics
  db : Db

/-- Write-back of a `HashMap` entry obtained with `reg.entry(key)`:
replace the entry under the key if present, otherwise append it. -/
def regInsert (reg : List (String × DeviceInfo)) (key : String)
    (e : DeviceInfo) : List (String × DeviceInfo) :=
  if (reg.map Prod.fst).contains key then
    reg.map (fun p => if p.1 = key then (key, e) else p)
  else
    reg ++ [(key, e)]

/-- Registry update for a `status` message (lines 745-760): fetch or create
the entry, refresh `last_seen` and `status_raw`, then assign `id`, `ip`,
`version`, `rssi` from the decoded value. -/
def updateRegistry (reg : List (String × DeviceInfo)) (device_id : String)
    (val : JsonVal) (now : Nat) : List (String × DeviceInfo) :=
  let entry :=
    match reg.lookup device_id with
    | some e => e
    | none =>
      { device_id := device_id, last_seen := now, id := none, ip := none,
        version := none, rssi := none, status_raw := none }
  let entry' :=
    { entry with
      last_seen := now,
      status_raw := some val,
      id := (val.get "id").bind JsonVal.as_str,
      ip := (val.get "ip").bind JsonVal.as_str,
      version := (val.get "version").bind JsonVal.as_str,
      rssi := (val.get "rssi").bind JsonVal.as_i64 }
  regInsert reg device_id entry'

/-- The sessions selected by `WHERE s.device_id = ? AND s.status = 'active'`. -/
def activeSessionsFor (sessions : List RoastSession) (device_id : String) :
    List RoastSession :=
  sessions.filter (fun s => s.device_id = device_id ∧ s.status = "active")

/-- The `INSERT INTO session_telemetry ... SELECT ... FROM roast_sessions s
WHERE s.device_id = ? AND s.status = 'active'` statement (lines 719-740):
one row per session of the device whose status is the string `active`,
with measurement columns extracted from the payload by fixed field names. -/
def sessionTelemetryInsert (sessions : List RoastSession) (device_id : String)
    (val : JsonVal) (now : Int) : List SessionTelemetryRow :=
  (activeSessionsFor sessions device_id).map
    (fun s =>
      { session_id := s.id, timestamp := now,
        bean_temp := val.get "beanTemp",
        env_temp := val.get "envTemp",
        rate_of_rise := val.get "rateOfRise",
        heater_pwm := val.get "heaterPWM",
        fan_pwm := val.get "fanPWM",
        setpoint := val.get "setpoint" })

/-- One iteration of the `loop` in `mqtt_consumer_loop` (lines 696-801),
for one received event; `now` is the value of `epoch_secs()`.
`Connected`/`Disconnected` set the connectivity gauge; a `Publish` with a
topic that parses as `roaster/{device}/{kind}` is dispatched on `kind`;
any payload that fails JSON decoding leaves caches and database untouched;
`PubAck` and receive errors do nothing. The loop body never breaks. -/
def mqtt_consumer_step (st : ConsumerState) (evt : MqttEvent) (now : Nat) :
    ConsumerState :=
  match evt with
  | .connected => { st with metrics := { st.metrics with mqtt_connected := 1 } }
  | .disconnected => { st with metrics := { st.metrics with mqtt_connected := 0 } }
  | .pubAck _ => st
  | .publish topic payload =>
    let st := { st with metrics :=
      { st.metrics with mqtt_rx_total := st.metrics.mqtt_rx_total + 1 } }
    match parse_roaster_topic topic with
    | none => st
    | some (device_id, kind) =>
      if kind = "telemetry" then
        match payload.parsed with
        | none => st
        | some val =>
          let seen := gaugeSet st.metrics.telemetry_last_seen device_id (Int.ofNat now)
          let row : TelemetryRow :=
            { device_id := device_id, ts := Int.ofNat now, payload := payload.text }
          let sessRows :=
            sessionTelemetryInsert st.db.roast_sessions device_id val (Int.ofNat now)
          { st with
            metrics := { st.metrics with telemetry_last_seen := seen },
            telemetry_cache := cacheInsert st.telemetry_cache device_id (val, now),
            db := { st.db with
                    telemetry := st.db.telemetry ++ [row],
                    session_telemetry := st.db.session_telemetry ++ sessRows } }
      else if kind = "status" then
        match payload.parsed with
        | none => st
        | some val =>
          let seen := gaugeSet st.metrics.status_last_seen device_id (Int.ofNat now)
          { st with
            metrics := { st.metrics with status_last_seen := seen },
            device_registry := updateRegistry st.device_registry device_id val now }
      else if kind = "autotune" then
        match (splitString topic '/').get? 3 with
        | none => st
        | some sub =>
          match payload.parsed with
          | none => st
          | some val =>
            let row : TelemetryRow :=
              { device_id := device_id, ts := Int.ofNat now, payload := payload.text }
            if sub = "status" then
              { st with
                autotune_status_cache :=
                  cacheInsert st.autotune_status_cache device_id (val, now),
                db := { st.db with
                        autotune_status := st.db.autotune_status ++ [row] } }
            else if sub = "results" then
              { st with
                autotune_results_cache :=
                  cacheInsert st.autotune_results_cache device_id (val, now),
                db := { st.db with
                        autotune_results := st.db.autotune_results ++ [row] } }
            else st
      else st

/-- The consumer loop over a stream of events with their arrival times: the
loop is an unconditional `loop` whose body never breaks, so it processes
every event of the stream in order. -/
def mqtt_consumer_loop (st : ConsumerState) :
    List (MqttEvent × Nat) → ConsumerState
  | [] => st
  | (evt, now) :: rest => mqtt_consumer_loop (mqtt_consumer_step st evt now) rest

/-- `get_active_session` from `crates/server/src/services.rs` (lines 476-492):
the session of the device whose status is `active` or `paused` with the most
recent `start_time` (`ORDER BY start_time DESC LIMIT 1`). SQLite's ordering
between equal keys is unspecified; the model takes the first maximal element. -/
def get_active_session (sessions : List RoastSession) (device_id : String) :
    Option RoastSession :=
  let candidates := sessions.filter
    (fun s => s.device_id = device_id ∧ (s.status = "active" ∨ s.status = "paused"))
  candidates.foldl
    (fun best s =>
      match best with
      | none => some s
      | some b => if s.start_time > b.start_time then some s else some b)
    none

/-! ## QoS1 publish with optional acknowledgment wait
(`publish_qos1_and_maybe_wait_ack` in `crates/server/src/main.rs`) -/

/-- The HTTP responses the helper can produce: `204 No Content`,
`504 "MQTT ack timeout"`, `502 "MQTT publish failed"`. -/
inductive Response where
  | noContent
  | gatewayTimeout
  | badGateway
deriving DecidableEq, Repr

/-- What `tokio::time::timeout(bound, rx.recv())` produced while waiting for
the acknowledgment: `Ok(Ok(evt))` (a broadcast event arrived within the
bound), `Ok(Err(_))` (the receiver failed within the bound), or
`Err(Elapsed)` (the bound elapsed). -/
inductive RecvOutcome where
  | event (e : MqttEvent)
  | recvFailed
  | elapsed

/-- `publish_qos1_and_maybe_wait_ack` (lines 464-488): publish at QoS 1;
on publish failure return `502`; otherwise, if the caller asked to wait for
the acknowledgment, await one receive on a fresh event subscription under the
timeout and match the outcome (note the source matches the received event
but maps `PubAck(_)` and every other event alike to `204`); without the
wait, return `204` at once. -/
def publish_qos1_and_maybe_wait_ack (publishOk : Bool) (wait_ack : Bool)
    (outcome : RecvOutcome) : Response :=
  if publishOk then
    if wait_ack then
      match outcome with
      | .event evt =>
        match evt with
        | .pubAck _ => Response.noContent
        | _ => Response.noContent
      | .recvFailed => Response.gatewayTimeout
      | .elapsed => Response.gatewayTimeout
    else Response.noContent
  else Response.badGateway

/-! ## Service-level traces (for the readiness invariant) -/

/-- An action affecting the shared `MqttService` state: one poll-loop
iteration, an API `subscribe` call (with its transport outcome), or an API
`disconnect` call. -/
inductive Action where
  | poll (r : PollResult)
  | apiSubscribe (topic : String) (qos : QoS) (transportOk : Bool)
  | apiDisconnect

/-- Effect of one action on the shared state. -/
def applyAction (st : LoopState) : Action → LoopState
  | .poll r => (run_eventloop_step st r).1
  | .apiSubscribe topic qos ok => (service_subscribe st topic qos ok).1
  | .apiDisconnect => service_disconnect st

/-- The shared state after a sequence of actions, starting from the state
`MqttService::connect` creates. -/
def runActions (acts : List Action) : LoopState :=
  acts.foldl applyAction initLoopState

/-- The actions that write the `ready` flag (connectivity transitions):
`ConnAck`, a poll error, an outgoing disconnect, and the `disconnect` API. -/
def isConnTransition : Action → Bool
  | .poll .connAck => true
  | .poll .pollError => true
  | .poll .outgoingDisconnect => true
  | .apiDisconnect => true
  | _ => false

/-- The most recent connectivity transition in a trace, if any. -/
def lastConnTransition (acts : List Action) : Option Action :=
  (acts.filter isConnTransition).getLast?

/-! ## Theorems -/

/-- **C9.** Topic parsing splits the topic on `/` and yields a
`(deviceId, kind)` pair exactly when the first segment equals the configured
root and at least three segments are present (the pair being the second and
third segments); any topic of any other shape — wrong root, or fewer than
three segments — yields no result. -/
theorem c9_topic_parsing (topic d k : String) :
    (parse_roaster_topic topic = some (d, k) ↔
      ∃ rest, splitString topic '/' = ROOT :: d :: k :: rest) ∧
    ((splitString topic '/').head? ≠ some ROOT ∨
        (splitString topic '/').length < 3 →
      parse_roaster_topic topic = none) := by
  unfold parse_roaster_topic
  rcases hs : splitString topic '/' with _ | ⟨root, rest⟩
  · constructor
    · constructor
      · intro h
        exact absurd h (by simp)
      · rintro ⟨r, hr⟩
        exact absurd hr (by simp)
    · intro _
      rfl
  · by_cases hroot : root = ROOT
    · subst hroot
      rcases rest with _ | ⟨dev, rest'⟩
      · constructor
        · constructor
          · intro h
            simp at h
          · rintro ⟨r, hr⟩
            simp at hr
        · intro _
          simp
      · rcases rest' with _ | ⟨kd, rest''⟩
        · constructor
          · constructor
            · intro h
              simp at h
            · rintro ⟨r, hr⟩
              simp at hr
          · intro h
            simp
        · constructor
          · constructor
            · intro h
              simp at h
              exact ⟨rest'', by rw [h.1, h.2]⟩
            · rintro ⟨r, hr⟩
              obtain ⟨h1, h2, h3⟩ := by
                simpa using hr
              simp [h1, h2]
          · intro h
            rcases h with h | h
            · simp at h
            · simp at h
              omega
    · constructor
      · constructor
        · intro h
          simp [hroot] at h
        · rintro ⟨r, hr⟩
          simp at hr
          exact absurd hr.1 hroot
      · intro _
        simp [hroot]

/-- Witness for C9 at a concrete topic: `roaster/dev1/telemetry` parses to
`(dev1, telemetry)`, and a wrong-root topic parses to nothing. -/
theorem c9_topic_parsing_witness :
    parse_roaster_topic "roaster/dev1/telemetry" = some ("dev1", "telemetry") ∧
    parse_roaster_topic "other/dev1/telemetry" = none := by
  constructor
  · exact ((c9_topic_parsing "roaster/dev1/telemetry" "dev1" "telemetry").1).2
      ⟨[], by decide⟩
  · exact (c9_topic_parsing "other/dev1/telemetry" "d" "k").2 (Or.inl (by decide))

/-- **C4.** `resubscribe_tracked` re-issues every tracked subscription
sequentially: on full success each tracked topic is subscribed exactly once
(the issued calls are exactly the tracked entries, and with the distinct
keys of a `HashMap` each topic appears once); if some subscribe call fails,
the function returns that failure and issues no further subscribe calls for
the remaining topics. -/
theorem c4_resubscribe_tracked (f : String → QoS → Option SubError)
    (subs : List (String × QoS)) :
    ((∀ p ∈ subs, f p.1 p.2 = none) →
      resubscribe_tracked f subs = (none, subs)) ∧
    ((∀ p ∈ subs, f p.1 p.2 = none) → (subsKeys subs).Nodup →
      ∀ t ∈ subsKeys subs,
        ((resubscribe_tracked f subs).2.map Prod.fst).count t = 1) ∧
    (∀ pre t q post err, subs = pre ++ (t, q) :: post →
      (∀ p ∈ pre, f p.1 p.2 = none) → f t q = some err →
      resubscribe_tracked f subs = (some err, pre ++ [(t, q)])) := by
  have hok : (∀ p ∈ subs, f p.1 p.2 = none) →
      resubscribe_tracked f subs = (none, subs) := by
    intro hall
    induction subs with
    | nil => rfl
    | cons p rest ih =>
      obtain ⟨t, q⟩ := p
      have h1 : f t q = none := hall (t, q) (by simp)
      have h2 : resubscribe_tracked f rest = (none, rest) :=
        ih (fun p hp => hall p (by simp [hp]))
      simp [resubscribe_tracked, h1, h2]
  refine ⟨hok, ?_, ?_⟩
  · intro hall hnodup t ht
    rw [hok hall]
    exact List.count_eq_one_of_mem hnodup ht
  · rintro pre t q post err rfl hpre hfail
    clear hok
    induction pre with
    | nil => simp [resubscribe_tracked, hfail]
    | cons p pre' ih =>
      obtain ⟨t', q'⟩ := p
      have h1 : f t' q' = none := hpre (t', q') (by simp)
      have h2 := ih (fun p hp => hpre p (by simp [hp]))
      simp [resubscribe_tracked, h1, h2]

/-- Witness for C4: with three tracked topics where the subscribe for the
second fails, the function returns that failure having issued calls only for
the first two topics. -/
theorem c4_resubscribe_tracked_witness :
    resubscribe_tracked
      (fun t _ => if t = "b" then some ⟨"boom"⟩ else none)
      [("a", QoS.atLeastOnce), ("b", QoS.atMostOnce), ("c", QoS.atLeastOnce)] =
      (some ⟨"boom"⟩, [("a", QoS.atLeastOnce), ("b", QoS.atMostOnce)]) :=
  (c4_resubscribe_tracked
      (fun t _ => if t = "b" then some ⟨"boom"⟩ else none)
      [("a", QoS.atLeastOnce), ("b", QoS.atMostOnce), ("c", QoS.atLeastOnce)]).2.2
    [("a", QoS.atLeastOnce)] "b" QoS.atMostOnce [("c", QoS.atLeastOnce)]
    ⟨"boom"⟩ rfl (by decide) (by decide)

/-- Loop state after `n` consecutive transport errors (poll errors). -/
def errStates (st : LoopState) : Nat → LoopState
  | 0 => st
  | n + 1 => (run_eventloop_step (errStates st n) .pollError).1

theorem errStates_backoff (st : LoopState) (h : st.backoff_secs = 1)
    (n : Nat) : (errStates st n).backoff_secs = min (2 ^ n) 60 := by
  induction n with
  | zero => simp [errStates, h]
  | succ n ih =>
    show (run_eventloop_step (errStates st n) .pollError).1.backoff_secs = _
    simp only [run_eventloop_step]
    rw [ih, pow_succ]
    generalize 2 ^ n = a
    omega

/-- **C5.** Under consecutive transport errors starting from the backoff
floor of 1, every error emits a `Disconnected` event and sleeps
`min (backoff, 30)` seconds before doubling the backoff towards its ceiling:
the `n`-th sleep lasts `min (2^n) 30` seconds — that is `2^n` for `n < 5`
(the prefix 1, 2, 4, 8, 16) and 30 from the fifth error on — never exceeding
30; a successful connect (`ConnAck`) resets the backoff to its floor of 1,
and a transport error never terminates the loop. -/
theorem c5_backoff_reconnect (st : LoopState) (n : Nat)
    (h : st.backoff_secs = 1) :
    (run_eventloop_step (errStates st n) .pollError).2.emitted =
      [MqttEvent.disconnected] ∧
    (run_eventloop_step (errStates st n) .pollError).2.sleptSecs =
      some (min (2 ^ n) 30) ∧
    min (2 ^ n) 30 ≤ 30 ∧
    (n < 5 → min (2 ^ n) 30 = 2 ^ n) ∧
    (5 ≤ n → min (2 ^ n) 30 = 30) ∧
    (run_eventloop_step (errStates st n) .pollError).2.continues = true ∧
    (∀ st' : LoopState, (run_eventloop_step st' .connAck).1.backoff_secs = 1) := by
  have hb := errStates_backoff st h n
  refine ⟨rfl, ?_, ?_, ?_, ?_, rfl, fun st' => rfl⟩
  · show some (min (errStates st n).backoff_secs 30) = _
    rw [hb]
    congr 1
    generalize 2 ^ n = a
    omega
  · exact min_le_right _ _
  · intro hn
    have h16 : 2 ^ n ≤ 16 := by
      calc 2 ^ n ≤ 2 ^ 4 := Nat.pow_le_pow_right (by norm_num) (by omega)
        _ = 16 := by norm_num
    omega
  · intro hn
    have h32 : 32 ≤ 2 ^ n := by
      calc (32 : ℕ) = 2 ^ 5 := by norm_num
        _ ≤ 2 ^ n := Nat.pow_le_pow_right (by norm_num) hn
    omega

/-- Witness for C5 at `n = 5` from the freshly-connected state: the sixth
sleep is capped at 30 seconds, `Disconnected` is emitted, and the loop
continues. -/
theorem c5_backoff_reconnect_witness :
    (run_eventloop_step (errStates initLoopState 5) .pollError).2.sleptSecs =
      some 30 ∧
    (run_eventloop_step (errStates initLoopState 5) .pollError).2.emitted =
      [MqttEvent.disconnected] ∧
    (run_eventloop_step (errStates initLoopState 5) .pollError).2.continues =
      true := by
  have h := c5_backoff_reconnect initLoopState 5 rfl
  exact ⟨by simpa using h.2.1, h.1, h.2.2.2.2.2.1⟩

theorem run_eventloop_step_subscriptions (st : LoopState) (r : PollResult) :
    (run_eventloop_step st r).1.subscriptions = st.subscriptions := by
  cases r <;> rfl

theorem subsKeys_subsInsert (subs : List (String × QoS)) (topic : String)
    (qos : QoS) : subsKeys subs ⊆ subsKeys (subsInsert subs topic qos) := by
  have key : ∀ l : List (String × QoS),
      subsKeys (l.map (fun p => if p.1 = topic then (topic, qos) else p)) =
        subsKeys l := by
    intro l
    induction l with
    | nil => rfl
    | cons p rest ih =>
      simp only [List.map_cons, subsKeys] at ih ⊢
      by_cases h : p.1 = topic <;> simp [h, ih]
  intro a ha
  unfold subsInsert
  split
  · rw [key]
    exact ha
  · simp only [subsKeys, List.map_append] at ha ⊢
    exact List.mem_append_left _ ha

/-- **C1.** The tracked-subscription set is never modified by the event loop:
after any sequence of transport failures and reconnections it equals the set
before (in particular after `N` reconnects it equals the set after `0`);
every successful (re)connect (`ConnAck`) re-issues exactly the tracked
subscriptions; and the only writer, `subscribe`, only ever adds topics
(never silently drops one). -/
theorem c1_tracked_subscriptions (st : LoopState) (rs : List PollResult)
    (topic : String) (qos : QoS) (transportOk : Bool) :
    (runLoop st rs).1.subscriptions = st.subscriptions ∧
    (run_eventloop_step st .connAck).2.subscribeCalls = st.subscriptions ∧
    subsKeys st.subscriptions ⊆
      subsKeys ((service_subscribe st topic qos transportOk).1).subscriptions := by
  refine ⟨?_, rfl, ?_⟩
  · induction rs generalizing st with
    | nil => rfl
    | cons r rs ih =>
      show (runLoop (run_eventloop_step st r).1 rs).1.subscriptions = _
      rw [ih, run_eventloop_step_subscriptions]
  · unfold service_subscribe
    split
    · exact subsKeys_subsInsert st.subscriptions topic qos
    · exact fun a ha => ha

/-- Witness for C1: one tracked subscription survives an error/reconnect
cycle unchanged. -/
theorem c1_tracked_subscriptions_witness :
    (runLoop
        { ready := true, backoff_secs := 1,
          subscriptions := [("roaster/+/telemetry", QoS.atLeastOnce)] }
        [PollResult.pollError, PollResult.connAck]).1.subscriptions =
      [("roaster/+/telemetry", QoS.atLeastOnce)] :=
  (c1_tracked_subscriptions
      { ready := true, backoff_secs := 1,
        subscriptions := [("roaster/+/telemetry", QoS.atLeastOnce)] }
      [PollResult.pollError, PollResult.connAck]
      "roaster/+/status" QoS.atMostOnce true).1

theorem runActions_append (acts : List Action) (a : Action) :
    runActions (acts ++ [a]) = applyAction (runActions acts) a := by
  simp [runActions, List.foldl_append]

theorem lastConnTransition_append (acts : List Action) (a : Action) :
    lastConnTransition (acts ++ [a]) =
      if isConnTransition a then some a else lastConnTransition acts := by
  unfold lastConnTransition
  rw [List.filter_append]
  by_cases h : isConnTransition a
  · simp only [h, if_true, List.filter_cons, List.filter_nil]
    rw [List.getLast?_append_cons]
    rfl
  · simp [h]

/-- **C10.** `is_ready()` is `false` from service creation until the first
`ConnAck`, and at every point of any action trace it is `true` exactly when
the most recent connectivity transition (ConnAck, transport error, outgoing
disconnect, or explicit `disconnect` call) was a successful connect
acknowledgment. -/
theorem c10_ready_iff_last_connack (acts : List Action) :
    initLoopState.ready = false ∧
    ((runActions acts).ready = true ↔
      lastConnTransition acts = some (Action.poll PollResult.connAck)) := by
  refine ⟨rfl, ?_⟩
  induction acts using List.reverseRecOn with
  | nil => simp [runActions, initLoopState, lastConnTransition]
  | append_singleton acts a ih =>
    rw [runActions_append, lastConnTransition_append]
    cases a with
    | poll r =>
      cases r with
      | connAck => simp [applyAction, run_eventloop_step, isConnTransition]
      | incomingPublish topic payload =>
        simpa [applyAction, run_eventloop_step, isConnTransition] using ih
      | incomingPubAck pkid =>
        simpa [applyAction, run_eventloop_step, isConnTransition] using ih
      | outgoingDisconnect =>
        simp [applyAction, run_eventloop_step, isConnTransition]
      | otherEvent =>
        simpa [applyAction, run_eventloop_step, isConnTransition] using ih
      | pollError =>
        simp [applyAction, run_eventloop_step, isConnTransition]
    | apiSubscribe topic qos ok =>
      cases ok with
      | true => simpa [applyAction, service_subscribe, isConnTransition] using ih
      | false => simpa [applyAction, service_subscribe, isConnTransition] using ih
    | apiDisconnect =>
      simp [applyAction, service_disconnect, isConnTransition]

/-- Witness for C10: after a transport error followed by a `ConnAck`, the
service reports ready. -/
theorem c10_ready_iff_last_connack_witness :
    (runActions [Action.poll PollResult.pollError,
                 Action.poll PollResult.connAck]).ready = true :=
  ((c10_ready_iff_last_connack
      [Action.poll PollResult.pollError, Action.poll PollResult.connAck]).2).mpr
    (by rfl)

/-- **C2.** For a decodable telemetry `Publish` for device `d`: exactly one
row is appended to the device-scoped `telemetry` table (tagged with the
arrival timestamp and raw payload); if no session of `d` has status
`active`, no `session_telemetry` row is written; if exactly one session of
`d` has status `active`, exactly one `session_telemetry` row is written,
carrying the device measurements extracted from the payload by the fixed
field names. -/
theorem c2_telemetry_persistence (st : ConsumerState) (topic d : String)
    (payload : RawPayload) (val : JsonVal) (now : Nat)
    (hparse : parse_roaster_topic topic = some (d, "telemetry"))
    (hdec : payload.parsed = some val) :
    (mqtt_consumer_step st (.publish topic payload) now).db.telemetry =
      st.db.telemetry ++
        [{ device_id := d, ts := Int.ofNat now, payload := payload.text }] ∧
    (activeSessionsFor st.db.roast_sessions d = [] →
      (mqtt_consumer_step st (.publish topic payload) now).db.session_telemetry
        = st.db.session_telemetry) ∧
    (∀ sess, activeSessionsFor st.db.roast_sessions d = [sess] →
      (mqtt_consumer_step st (.publish topic payload) now).db.session_telemetry
        = st.db.session_telemetry ++
          [{ session_id := sess.id, timestamp := Int.ofNat now,
             bean_temp := val.get "beanTemp", env_temp := val.get "envTemp",
             rate_of_rise := val.get "rateOfRise",
             heater_pwm := val.get "heaterPWM", fan_pwm := val.get "fanPWM",
             setpoint := val.get "setpoint" }]) := by
  have hstep :
      (mqtt_consumer_step st (.publish topic payload) now).db.telemetry =
        st.db.telemetry ++
          [{ device_id := d, ts := Int.ofNat now, payload := payload.text }] ∧
      (mqtt_consumer_step st (.publish topic payload) now).db.session_telemetry
        = st.db.session_telemetry ++
            sessionTelemetryInsert st.db.roast_sessions d val (Int.ofNat now) := by
    unfold mqtt_consumer_step
    simp [hparse, hdec]
  refine ⟨hstep.1, ?_, ?_⟩
  · intro hempty
    rw [hstep.2]
    simp [sessionTelemetryInsert, hempty]
  · intro sess hone
    rw [hstep.2]
    simp [sessionTelemetryInsert, hone]

/-- A concrete consumer state for witnesses: empty caches and tables, one
`active` roast session `s1` for device `dev1`. -/
def witnessState : ConsumerState :=
  { telemetry_cache := [], device_registry := [],
    autotune_status_cache := [], autotune_results_cache := [],
    metrics := { mqtt_connected := 0, mqtt_rx_total := 0,
                 telemetry_last_seen := [], status_last_seen := [] },
    db := { telemetry := [], session_telemetry := [],
            autotune_status := [], autotune_results := [],
            roast_sessions :=
              [{ id := "s1", device_id := "dev1", status := "active",
                 start_time := 100 }] } }

/-- Witness for C2: a telemetry publish for `dev1`, which has exactly one
active session, appends one `telemetry` row and one `session_telemetry` row. -/
theorem c2_telemetry_persistence_witness :
    (mqtt_consumer_step witnessState
        (.publish "roaster/dev1/telemetry"
          { text := "beanTemp 100 envTemp 90",
            parsed := some (.obj [("beanTemp", .num 100), ("envTemp", .num 90)]) })
        200).db.session_telemetry =
      [{ session_id := "s1", timestamp := 200,
         bean_temp := some (.num 100), env_temp := some (.num 90),
         rate_of_rise := none, heater_pwm := none, fan_pwm := none,
         setpoint := none }] := by
  have h := (c2_telemetry_persistence witnessState "roaster/dev1/telemetry"
    "dev1"
    { text := "beanTemp 100 envTemp 90",
      parsed := some (.obj [("beanTemp", .num 100), ("envTemp", .num 90)]) }
    (.obj [("beanTemp", .num 100), ("envTemp", .num 90)]) 200
    (by rfl) rfl).2.2
    { id := "s1", device_id := "dev1", status := "active", start_time := 100 }
    (by rfl)
  rw [h]
  rfl

/-- **C6.** A `Publish` whose payload fails to decode leaves every cache
(telemetry, device registry, autotune status, autotune results) unchanged,
writes no database row, and the consumer loop goes on to process the
remaining events. -/
theorem c6_decode_failure_frame (st : ConsumerState) (topic : String)
    (payload : RawPayload) (now : Nat) (rest : List (MqttEvent × Nat))
    (hdec : payload.parsed = none) :
    (mqtt_consumer_step st (.publish topic payload) now).telemetry_cache =
      st.telemetry_cache ∧
    (mqtt_consumer_step st (.publish topic payload) now).device_registry =
      st.device_registry ∧
    (mqtt_consumer_step st (.publish topic payload) now).autotune_status_cache
      = st.autotune_status_cache ∧
    (mqtt_consumer_step st (.publish topic payload) now).autotune_results_cache
      = st.autotune_results_cache ∧
    (mqtt_consumer_step st (.publish topic payload) now).db = st.db ∧
    mqtt_consumer_loop st ((MqttEvent.publish topic payload, now) :: rest) =
      mqtt_consumer_loop (mqtt_consumer_step st (.publish topic payload) now)
        rest := by
  have hstep : mqtt_consumer_step st (.publish topic payload) now =
      { st with metrics :=
          { st.metrics with mqtt_rx_total := st.metrics.mqtt_rx_total + 1 } } := by
    unfold mqtt_consumer_step
    rcases hp : parse_roaster_topic topic with _ | ⟨d, kind⟩
    · simp [hp]
    · simp only [hp]
      by_cases h1 : kind = "telemetry"
      · simp [h1, hdec]
      · by_cases h2 : kind = "status"
        · simp [h1, h2, hdec]
        · by_cases h3 : kind = "autotune"
          · rcases hsub : (splitString topic '/').get? 3 with _ | sub <;>
              simp [h1, h2, h3, hsub, hdec]
          · simp [h1, h2, h3]
  refine ⟨?_, ?_, ?_, ?_, ?_, rfl⟩ <;> rw [hstep]

/-- Witness for C6: an unparsable telemetry payload for `dev1` leaves the
state's caches and database exactly as they were. -/
theorem c6_decode_failure_frame_witness :
    (mqtt_consumer_step witnessState
        (.publish "roaster/dev1/telemetry" { text := "not json", parsed := none })
        200).db = witnessState.db ∧
    (mqtt_consumer_step witnessState
        (.publish "roaster/dev1/telemetry" { text := "not json", parsed := none })
        200).telemetry_cache = witnessState.telemetry_cache := by
  have h := c6_decode_failure_frame witnessState "roaster/dev1/telemetry"
    { text := "not json", parsed := none } 200 [] rfl
  exact ⟨h.2.2.2.2.1, h.1⟩

/-- Counterexample to **C7**: the registry entry for `dev1` starts with
`ip = some "10.0.0.5"`; a decodable status message that omits `ip`
(it only provides `id`) arrives, and afterwards the entry's `ip` is `none` —
the field was cleared by a message that omitted it, because lines 757-760
assign `id`/`ip`/`version`/`rssi` unconditionally from the new message. -/
theorem c7_counterexample :
    ((mqtt_consumer_step
        { telemetry_cache := [],
          device_registry := [("dev1",
            { device_id := "dev1", last_seen := 0, id := some "roaster-1",
              ip := some "10.0.0.5", version := some "1.0.0",
              rssi := some (-40), status_raw := none })],
          autotune_status_cache := [], autotune_results_cache := [],
          metrics := { mqtt_connected := 0, mqtt_rx_total := 0,
                       telemetry_last_seen := [], status_last_seen := [] },
          db := { telemetry := [], session_telemetry := [],
                  autotune_status := [], autotune_results := [],
                  roast_sessions := [] } }
        (.publish "roaster/dev1/status"
          { text := "id roaster-1",
            parsed := some (.obj [("id", .str "roaster-1")]) })
        5).device_registry.lookup "dev1").map DeviceInfo.ip = some none := by
  rfl

theorem lookup_regInsert (reg : List (String × DeviceInfo)) (key : String)
    (e : DeviceInfo) : (regInsert reg key e).lookup key = some e := by
  unfold regInsert
  induction reg with
  | nil => simp [List.lookup]
  | cons p rest ih =>
    by_cases h : p.1 = key
    · have hc : ((p :: rest).map Prod.fst).contains key = true := by
        rw [List.map_cons, List.contains_cons,
          show (key == p.1) = true from beq_iff_eq.mpr h.symm, Bool.true_or]
      rw [if_pos hc, List.map_cons, if_pos h]
      simp [List.lookup]
    · have hbeq : (key == p.1) = false :=
        beq_eq_false_iff_ne.mpr (fun hh => h hh.symm)
      have hcons : ((p :: rest).map Prod.fst).contains key =
          (rest.map Prod.fst).contains key := by
        rw [List.map_cons, List.contains_cons, hbeq, Bool.false_or]
      by_cases hc : (rest.map Prod.fst).contains key = true
      · rw [if_pos (hcons ▸ hc), List.map_cons, if_neg h]
        rw [if_pos hc] at ih
        simpa [List.lookup, hbeq] using ih
      · rw [if_neg (by rw [hcons]; exact hc)]
        rw [if_neg hc] at ih
        simpa [List.lookup, hbeq] using ih

/-- **C7 (amended).** Every decodable status message overwrites the registry
fields `id`, `ip`, `version`, `rssi` unconditionally with the values it
provides; a field the message omits is cleared back to absent (rather than
preserved); `last_seen` and `status_raw` are refreshed on every message. -/
theorem c7_status_fields_overwritten (st : ConsumerState) (topic d : String)
    (payload : RawPayload) (val : JsonVal) (now : Nat)
    (hparse : parse_roaster_topic topic = some (d, "status"))
    (hdec : payload.parsed = some val) :
    ∃ e, (mqtt_consumer_step st (.publish topic payload) now).device_registry.lookup d
        = some e ∧
      e.last_seen = now ∧
      e.status_raw = some val ∧
      e.id = (val.get "id").bind JsonVal.as_str ∧
      e.ip = (val.get "ip").bind JsonVal.as_str ∧
      e.version = (val.get "version").bind JsonVal.as_str ∧
      e.rssi = (val.get "rssi").bind JsonVal.as_i64 := by
  have hreg :
      (mqtt_consumer_step st (.publish topic payload) now).device_registry =
        updateRegistry st.device_registry d val now := by
    unfold mqtt_consumer_step
    simp [hparse, hdec]
  rw [hreg]
  unfold updateRegistry
  rw [lookup_regInsert]
  exact ⟨_, rfl, rfl, rfl, rfl, rfl, rfl, rfl⟩

/-- Witness for the amended C7: after the counterexample's status message
(which omits `ip`), the `dev1` entry exists with `id` set from the message
and `ip` absent. -/
theorem c7_status_fields_overwritten_witness :
    ∃ e, (mqtt_consumer_step
        { telemetry_cache := [],
          device_registry := [("dev1",
            { device_id := "dev1", last_seen := 0, id := some "roaster-1",
              ip := some "10.0.0.5", version := some "1.0.0",
              rssi := some (-40), status_raw := none })],
          autotune_status_cache := [], autotune_results_cache := [],
          metrics := { mqtt_connected := 0, mqtt_rx_total := 0,
                       telemetry_last_seen := [], status_last_seen := [] },
          db := { telemetry := [], session_telemetry := [],
                  autotune_status := [], autotune_results := [],
                  roast_sessions := [] } }
        (.publish "roaster/dev1/status"
          { text := "id roaster-1",
            parsed := some (.obj [("id", .str "roaster-1")]) })
        5).device_registry.lookup "dev1" = some e ∧
      e.last_seen = 5 ∧ e.id = some "roaster-1" ∧ e.ip = none := by
  obtain ⟨e, he, h1, _, h3, h4, _⟩ := c7_status_fields_overwritten
    { telemetry_cache := [],
      device_registry := [("dev1",
        { device_id := "dev1", last_seen := 0, id := some "roaster-1",
          ip := some "10.0.0.5", version := some "1.0.0",
          rssi := some (-40), status_raw := none })],
      autotune_status_cache := [], autotune_results_cache := [],
      metrics := { mqtt_connected := 0, mqtt_rx_total := 0,
                   telemetry_last_seen := [], status_last_seen := [] },
      db := { telemetry := [], session_telemetry := [],
              autotune_status := [], autotune_results := [],
              roast_sessions := [] } }
    "roaster/dev1/status" "dev1"
    { text := "id roaster-1", parsed := some (.obj [("id", .str "roaster-1")]) }
    (.obj [("id", .str "roaster-1")]) 5 (by rfl) rfl
  exact ⟨e, he, h1, by rw [h3]; rfl, by rw [h4]; rfl⟩

/-- Divergence demonstration for **C3**: device `dev1` has sessions
`s1` (active, started at 100), `s2` (active, started at 200) and
`s3` (paused, started at 400). The claim (and
`get_active_session`, the repository's own notion of active session) picks
the most recent Active-or-Paused session, `s3`; but the persistence writer's
inline SQL attaches the telemetry record to every `active`-status session —
here both `s1` and `s2`, two rows — ignoring `paused` sessions and taking no
most-recent choice. The writer does keep running (the loop processes the
next event). -/
theorem c3_active_session_divergence :
    (mqtt_consumer_step
        { telemetry_cache := [], device_registry := [],
          autotune_status_cache := [], autotune_results_cache := [],
          metrics := { mqtt_connected := 0, mqtt_rx_total := 0,
                       telemetry_last_seen := [], status_last_seen := [] },
          db := { telemetry := [], session_telemetry := [],
                  autotune_status := [], autotune_results := [],
                  roast_sessions :=
                    [{ id := "s1", device_id := "dev1", status := "active",
                       start_time := 100 },
                     { id := "s2", device_id := "dev1", status := "active",
                       start_time := 200 },
                     { id := "s3", device_id := "dev1", status := "paused",
                       start_time := 400 }] } }
        (.publish "roaster/dev1/telemetry"
          { text := "beanTemp 100", parsed := some (.obj [("beanTemp", .num 100)]) })
        500).db.session_telemetry.map SessionTelemetryRow.session_id =
      ["s1", "s2"] ∧
    (get_active_session
        [{ id := "s1", device_id := "dev1", status := "active",
           start_time := 100 },
         { id := "s2", device_id := "dev1", status := "active",
           start_time := 200 },
         { id := "s3", device_id := "dev1", status := "paused",
           start_time := 400 }] "dev1").map RoastSession.id = some "s3" := by
  exact ⟨rfl, rfl⟩

/-- Whether a broadcast event is a publish acknowledgment. -/
def isPubAckEvent : MqttEvent → Bool
  | .pubAck _ => true
  | _ => false

/-- Counterexample to **C8**: the caller requests a delivery confirmation,
the publish succeeds, and within the bound the event subscription delivers a
telemetry `Publish` event — not an acknowledgment — yet the helper returns
the success result (lines 472-475 map every received event to `204`), so
success is returned although no acknowledgment arrived within the bound. -/
theorem c8_counterexample :
    publish_qos1_and_maybe_wait_ack true true
        (.event (.publish "roaster/dev1/telemetry"
          { text := "beanTemp 100", parsed := none })) = Response.noContent ∧
    isPubAckEvent (.publish "roaster/dev1/telemetry"
        { text := "beanTemp 100", parsed := none }) = false := by
  exact ⟨rfl, rfl⟩

/-- **C8 (amended).** With a delivery confirmation requested and the publish
accepted, the distinct acknowledgment-timeout result (504) is returned iff
the single awaited receive yields no event within the bound (timeout elapsed
or receiver failure); receiving any broadcast event — an acknowledgment or
not — yields the success result; a rejected publish yields the distinct
publish-failure result (502), never the timeout result. -/
theorem c8_ack_timeout_distinct (publishOk wait_ack : Bool)
    (outcome : RecvOutcome) :
    (publishOk = true → wait_ack = true →
      (publish_qos1_and_maybe_wait_ack publishOk wait_ack outcome =
          Response.gatewayTimeout ↔
        (outcome = RecvOutcome.recvFailed ∨ outcome = RecvOutcome.elapsed))) ∧
    (publishOk = true → wait_ack = true →
      (publish_qos1_and_maybe_wait_ack publishOk wait_ack outcome =
          Response.noContent ↔ ∃ e, outcome = RecvOutcome.event e)) ∧
    (publishOk = false →
      publish_qos1_and_maybe_wait_ack publishOk wait_ack outcome =
        Response.badGateway) := by
  refine ⟨?_, ?_, ?_⟩
  · rintro rfl rfl
    cases outcome with
    | event e => cases e <;> simp [publish_qos1_and_maybe_wait_ack]
    | recvFailed => simp [publish_qos1_and_maybe_wait_ack]
    | elapsed => simp [publish_qos1_and_maybe_wait_ack]
  · rintro rfl rfl
    cases outcome with
    | event e => cases e <;> simp [publish_qos1_and_maybe_wait_ack]
    | recvFailed => simp [publish_qos1_and_maybe_wait_ack]
    | elapsed => simp [publish_qos1_and_maybe_wait_ack]
  · rintro rfl
    simp [publish_qos1_and_maybe_wait_ack]

/-- Witness for the amended C8: with the publish accepted and the bound
elapsing with no event, the helper returns the timeout result. -/
theorem c8_ack_timeout_distinct_witness :
    publish_qos1_and_maybe_wait_ack true true RecvOutcome.elapsed =
      Response.gatewayTimeout :=
  ((c8_ack_timeout_distinct true true RecvOutcome.elapsed).1 rfl rfl).2
    (Or.inr rfl)

end RustRoast
